import Mathlib

/-!
Verification development for the multi-vendor LLM generation gateway
(`gemini-cli-forall`).  The definitions below are a shallow embedding of the
TypeScript sources: pure translation functions become Lean functions, the
streaming transport becomes a function from a connection outcome to the list
of elements it yields, and the client registry becomes explicit state
passing.  External host functions (`JSON.parse`, `JSON.stringify`,
`path.resolve`, `Date.now`, the random request-id generator) are supplied
through a context structure `JsCtx`, since their behaviour is not part of the
repository.  JavaScript truthiness of optional strings / numbers / JSON
values is modelled explicitly by the `strTruthy` / `natTruthyD` /
`jsonTruthy` helpers.
-/

/-- JSON value as produced by the host JSON library.  JSON numbers are
modelled as integers; no claim depends on fractional numeric values. -/
inductive Json where
  | null
  | bool (b : Bool)
  | num (n : Int)
  | str (s : String)
  | arr (elems : List Json)
  | obj (fields : List (String × Json))

/-- JavaScript truthiness of an optional string: `undefined` and `""` are
falsy. -/
def strTruthy (o : Option String) : Bool :=
  match o with
  | some s => !(s == "")
  | none => false

/-- JavaScript `x || d` for an optional string `x`. -/
def strTruthyD (o : Option String) (d : String) : String :=
  match o with
  | some s => if s = "" then d else s
  | none => d

/-- JavaScript `x || d` for an optional number `x` (0 is falsy). -/
def natTruthyD (o : Option Nat) (d : Nat) : Nat :=
  match o with
  | some n => if n = 0 then d else n
  | none => d

/-- JavaScript truthiness of a JSON value. -/
def jsonTruthy (j : Json) : Bool :=
  match j with
  | .null => false
  | .bool b => b
  | .num n => !(n == 0)
  | .str s => !(s == "")
  | .arr _ => true
  | .obj _ => true

/-- JavaScript `x || d` for an optional JSON value `x`. -/
def jsonTruthyD (o : Option Json) (d : Json) : Json :=
  match o with
  | some j => if jsonTruthy j then j else d
  | none => d

/-- JavaScript string concatenation with a possibly-undefined right operand
(`s + undefined` coerces to the string `"undefined"`). -/
def jsAppendStr (acc : String) (o : Option String) : String :=
  acc ++ o.getD "undefined"

/-- JavaScript `String.prototype.trim`, modelled directly on the character
list so that it reduces inside the kernel. -/
def jsTrim (s : String) : String :=
  ⟨((s.data.dropWhile Char.isWhitespace).reverse.dropWhile
      Char.isWhitespace).reverse⟩

/-- JavaScript `String.prototype.startsWith`. -/
def jsStartsWith (s pat : String) : Bool :=
  pat.data.isPrefixOf s.data

/-- JavaScript `String.prototype.slice(n)` (the embedded strings are ASCII,
so code units coincide with characters). -/
def jsSlice (s : String) (n : Nat) : String :=
  ⟨s.data.drop n⟩

/-- Splitting a character list at every newline (never returns `[]`). -/
def splitNewlineChars : List Char → List (List Char)
  | [] => [[]]
  | a :: rest =>
      match splitNewlineChars rest with
      | [] => [[]]
      | grp :: grps =>
          if a = '\n' then [] :: grp :: grps else (a :: grp) :: grps

/-- JavaScript `String.prototype.split('\n')`. -/
def jsSplitNewline (s : String) : List String :=
  (splitNewlineChars s.data).map (fun cs => ⟨cs⟩)

/-! ## Canonical schema (packages/core/src/models/types.ts) -/

/-- Message roles of the canonical schema. -/
inductive Role where
  | system
  | user
  | assistant
  | tool
deriving DecidableEq

/-- The runtime string value of a role. -/
def Role.toStringValue : Role → String
  | .system => "system"
  | .user => "user"
  | .assistant => "assistant"
  | .tool => "tool"

/-- Typed content part of a canonical message (`ContentPart`).  The `data`
field (inline base64 payload) is modelled as a string. -/
structure ContentPart where
  type : String
  text : Option String := none
  imageUrl : Option String := none
  mimeType : Option String := none
  data : Option String := none

/-- Canonical message content: plain text or a part list. -/
inductive MessageContent where
  | str (s : String)
  | parts (ps : List ContentPart)

/-- Function payload of a canonical tool call. -/
structure ToolCallFn where
  name : String
  arguments : String

/-- Canonical `ToolCall`. -/
structure ToolCall where
  id : String
  type : String
  function : ToolCallFn

/-- Canonical `ChatMessage`. -/
structure ChatMessage where
  role : Role
  content : MessageContent
  name : Option String := none
  toolCallId : Option String := none
  toolCalls : Option (List ToolCall) := none

/-- Canonical `GenerationParameters` (the fields the embedded code reads).
Real-valued sampling parameters are modelled as rationals. -/
structure GenerationParameters where
  maxTokens : Option Nat := none
  temperature : Option Rat := none
  topP : Option Rat := none
  topK : Option Nat := none
  stopSequences : Option (List String) := none
  stream : Option Bool := none
  systemPrompt : Option String := none

/-- Function payload of a canonical `ToolDefinition`. -/
structure ToolDefFn where
  name : String
  description : String
  parameters : Json

/-- Canonical `ToolDefinition`. -/
structure ToolDefinition where
  type : String := "function"
  function : ToolDefFn

/-- Canonical `GenerationRequest`. -/
structure GenerationRequest where
  messages : List ChatMessage
  parameters : Option GenerationParameters := none
  tools : Option (List ToolDefinition) := none

/-- Canonical finish reasons (the non-null members of the enumeration). -/
inductive FinishReason where
  | stop
  | length
  | tool_calls
  | content_filter
deriving DecidableEq

/-- Canonical token usage. -/
structure Usage where
  promptTokens : Nat
  completionTokens : Nat
  totalTokens : Nat

/-- One choice of a canonical `GenerationResponse`. -/
structure ResponseChoice where
  index : Nat
  message : ChatMessage
  finishReason : Option FinishReason

/-- Canonical `GenerationResponse`. -/
structure GenerationResponse where
  id : String
  model : String
  created : Nat
  choices : List ResponseChoice
  usage : Option Usage := none

/-- Function payload of a streamed tool-call fragment (fields may be absent
on the wire, mirroring the untyped access in the hooks). -/
structure FragmentFn where
  name : Option String := none
  arguments : Option String := none

/-- A tool-call fragment carried in a streaming delta. -/
structure ToolCallFragment where
  id : Option String := none
  type : Option String := none
  function : Option FragmentFn := none

/-- Canonical streaming delta (`Partial<ChatMessage>` as the adapters
actually populate it). -/
structure Delta where
  content : Option String := none
  toolCalls : Option (List ToolCallFragment) := none

/-- One choice of a canonical `StreamingChunk`. -/
structure ChunkChoice where
  index : Nat
  delta : Delta
  finishReason : Option FinishReason

/-- Canonical `StreamingChunk`. -/
structure StreamingChunk where
  id : String
  model : String
  created : Nat
  choices : List ChunkChoice
  usage : Option Usage := none

/-- Canonical `TokenCountRequest`. -/
structure TokenCountRequest where
  messages : List ChatMessage
  model : Option String := none
  tools : Option (List ToolDefinition) := none

/-- Canonical `TokenCountResponse`; `metadata` is a JSON object. -/
structure TokenCountResponse where
  totalTokens : Nat
  promptTokens : Option Nat := none
  metadata : Option (List (String × Json)) := none

/-! ## Host-environment context -/

/-- External host functions used by the clients.  `jsonParse` returns `none`
when `JSON.parse` would throw; `reqId n` is the result of the `(n+1)`-st
`generateRequestId()` call inside one transform invocation; `now` is the
current `getCurrentTimestamp()` value. -/
structure JsCtx where
  jsonParse : String → Option Json
  jsonStringify : Json → String
  resolvePath : String → String
  reqId : Nat → String
  now : Nat

/-! ## Model catalog types (packages/core/src/models/types.ts) -/

/-- Supported model providers. -/
inductive ModelProvider where
  | GOOGLE_GEMINI
  | ANTHROPIC_CLAUDE
  | OPENAI_GPT
  | AZURE_OPENAI
  | DEEPSEEK
  | QWEN
  | CUSTOM
deriving DecidableEq

/-- The runtime string value of a provider enum member. -/
def ModelProvider.value : ModelProvider → String
  | .GOOGLE_GEMINI => "google-gemini"
  | .ANTHROPIC_CLAUDE => "anthropic-claude"
  | .OPENAI_GPT => "openai-gpt"
  | .AZURE_OPENAI => "azure-openai"
  | .DEEPSEEK => "deepseek"
  | .QWEN => "qwen"
  | .CUSTOM => "custom"

/-- Capability set of a model configuration. -/
structure ModelCapabilities where
  textGeneration : Bool
  streaming : Bool
  functionCalling : Bool
  multimodal : Bool
  embedding : Bool
  tokenCounting : Bool
  maxTokens : Option Nat := none
  maxContextLength : Option Nat := none
  supportedMimeTypes : Option (List String) := none
deriving DecidableEq

/-- Model configuration. -/
structure ModelConfig where
  provider : ModelProvider
  model : String
  displayName : Option String := none
  capabilities : ModelCapabilities
  baseUrl : Option String := none
  apiVersion : Option String := none
deriving DecidableEq

/-- Authentication configuration; `provider` and `method` hold the string
values of the `AuthProvider` / `AuthMethod` enums (e.g. "deepseek",
"deepseek-api-key"). -/
structure AuthConfig where
  provider : String
  method : String
  apiKey : Option String := none
deriving DecidableEq

/-! ## BaseModelClient helpers (packages/core/src/models/clients/base.ts) -/

namespace BaseModelClient

/-- Transcribes `extractTextFromContent`: a plain string is returned as is;
a part list keeps the truthy text parts and joins them with newlines. -/
def extractTextFromContent (content : MessageContent) : String :=
  match content with
  | .str s => s
  | .parts ps =>
      String.intercalate "\n"
        ((ps.filter (fun p => p.type == "text" && strTruthy p.text)).map
          (fun p => p.text.getD ""))

/-- One element yielded by `makeStreamingRequest`; `α` is the type of the
values produced by the host `JSON.parse` (consumed untyped in the source). -/
structure SSEElem (α : Type) where
  success : Bool
  data : Option α := none
  error : Option String := none
  done : Bool := false

/-- Outcome of the initial `fetch` and of reading the response body:
a non-OK status, an OK response with no readable body, a body delivering the
given decoded text chunks and ending cleanly, or a body delivering the given
chunks and then failing with a connection error. -/
inductive ConnResult where
  | notOk (status : Nat) (statusText : String)
  | noBody
  | okBody (reads : List String)
  | okBodyAbort (reads : List String) (message : String)

/-- Processing of one complete line of the SSE body: blank lines and the
`data: [DONE]` sentinel are skipped, a `data: ` line is JSON-parsed into a
success element or an error-tagged element, anything else is ignored. -/
def processLine {α : Type} (parse : String → Option α) (line : String) :
    Option (SSEElem α) :=
  let trimmed := jsTrim line
  if trimmed = "" ∨ trimmed = "data: [DONE]" then none
  else if jsStartsWith trimmed "data: " then
    match parse (jsSlice trimmed 6) with
    | some j => some { success := true, data := some j }
    | none => some { success := false, error := some "JSON parse error" }
  else none

/-- One `reader.read()` step: the decoded chunk is appended to the line
buffer, complete lines are processed, the trailing partial line becomes the
new buffer. -/
def feedChunk {α : Type} (parse : String → Option α)
    (st : List (SSEElem α) × String) (chunk : String) :
    List (SSEElem α) × String :=
  let buf := st.2 ++ chunk
  let parts := jsSplitNewline buf
  (st.1 ++ (parts.dropLast).filterMap (processLine parse), parts.getLastD "")

/-- Transcribes `makeStreamingRequest` as a function from the connection
outcome to the list of elements the generator yields.  A non-OK status or a
missing body yields exactly one error element; a clean body yields the
elements of its processed lines followed by one terminal `done` element
(the final partial line left in the buffer is discarded, as in the source);
a mid-stream connection failure yields the processed elements followed by
one error element and no terminal element. -/
def makeStreamingRequest {α : Type} (parse : String → Option α) :
    ConnResult → List (SSEElem α)
  | .notOk status statusText =>
      [{ success := false,
         error := some ("HTTP " ++ toString status ++ ": " ++ statusText) }]
  | .noBody => [{ success := false, error := some "No response body available" }]
  | .okBody reads =>
      (reads.foldl (feedChunk parse) ([], "")).1 ++ [{ success := true, done := true }]
  | .okBodyAbort reads message =>
      (reads.foldl (feedChunk parse) ([], "")).1 ++
        [{ success := false, error := some message }]

end BaseModelClient

/-! ## DeepSeek client (packages/core/src/models/clients/deepseek.ts) -/

namespace DeepSeekClient

/-- Transcribes `mapFinishReason` of the DeepSeek client (identity on the
four canonical codes, `null` otherwise). -/
def mapFinishReason (reason : Option String) : Option FinishReason :=
  match reason with
  | none => none
  | some r =>
      if r = "stop" then some .stop
      else if r = "length" then some .length
      else if r = "tool_calls" then some .tool_calls
      else if r = "content_filter" then some .content_filter
      else none

/-- Transcribes `countTokens`: the extracted texts of all messages are
newline-joined and the estimate is the ceiling of the length divided by 4
(`Math.ceil(totalText.length / 4)`), marked as estimated. -/
def countTokens (request : TokenCountRequest) : TokenCountResponse :=
  let totalText := String.intercalate "\n"
    (request.messages.map (fun msg => BaseModelClient.extractTextFromContent msg.content))
  let estimatedTokens := (totalText.length + 3) / 4
  { totalTokens := estimatedTokens,
    promptTokens := some estimatedTokens,
    metadata := some [("estimated", Json.bool true)] }

/-- Function payload of a tool call in a DeepSeek (OpenAI-shaped)
non-streaming response. -/
structure DSFn where
  name : String
  arguments : String

/-- Tool call of a DeepSeek non-streaming response. -/
structure DSToolCall where
  id : String
  function : DSFn

/-- Message of a DeepSeek non-streaming choice. -/
structure DSMessage where
  content : Option String := none
  tool_calls : Option (List DSToolCall) := none

/-- Choice of a DeepSeek non-streaming response. -/
structure DSRespChoice where
  message : Option DSMessage := none
  finish_reason : Option String := none

/-- Usage block of a DeepSeek response. -/
structure DSUsage where
  prompt_tokens : Option Nat := none
  completion_tokens : Option Nat := none
  total_tokens : Option Nat := none

/-- Payload of a DeepSeek non-streaming response. -/
structure DSRespData where
  id : Option String := none
  model : Option String := none
  created : Option Nat := none
  choices : Option (List DSRespChoice) := none
  usage : Option DSUsage := none

/-- Transcribes `transformResponse`: fails when there is no first choice,
otherwise translates exactly the first choice into one canonical choice at
index 0 with role assistant. -/
def transformResponse (cfg : ModelConfig) (ctx : JsCtx) (data : DSRespData) :
    Except String GenerationResponse :=
  match data.choices.bind List.head? with
  | none => .error "No choices in DeepSeek response"
  | some choice =>
      let content := strTruthyD (choice.message.bind (·.content)) ""
      let toolCalls : Option (List ToolCall) :=
        match choice.message.bind (·.tool_calls) with
        | some l =>
            if l.length ≠ 0 then
              some (l.map (fun tc =>
                { id := tc.id, type := "function",
                  function := { name := tc.function.name,
                                arguments := tc.function.arguments } }))
            else none
        | none => none
      let message : ChatMessage :=
        { role := .assistant, content := .str content, toolCalls := toolCalls }
      .ok
        { id := strTruthyD data.id (ctx.reqId 0),
          model := strTruthyD data.model cfg.model,
          created := natTruthyD data.created ctx.now,
          choices := [{ index := 0, message := message,
                        finishReason := mapFinishReason choice.finish_reason }],
          usage := data.usage.map (fun u =>
            { promptTokens := u.prompt_tokens.getD 0,
              completionTokens := u.completion_tokens.getD 0,
              totalTokens := u.total_tokens.getD 0 }) }

/-- Function payload of a streamed DeepSeek tool-call fragment. -/
structure DSDeltaFn where
  name : Option String := none
  arguments : Option String := none

/-- Streamed DeepSeek tool-call fragment. -/
structure DSDeltaToolCall where
  id : Option String := none
  function : Option DSDeltaFn := none

/-- Delta of a DeepSeek streaming choice. -/
structure DSDelta where
  content : Option String := none
  tool_calls : Option (List DSDeltaToolCall) := none

/-- Choice of a DeepSeek streaming chunk. -/
structure DSStreamChoice where
  delta : Option DSDelta := none
  finish_reason : Option String := none

/-- Payload of a DeepSeek streaming chunk. -/
structure DSStreamData where
  id : Option String := none
  model : Option String := none
  created : Option Nat := none
  choices : Option (List DSStreamChoice) := none
  usage : Option DSUsage := none

/-- Transcribes `transformStreamingChunk`: `null` when the first choice has
no delta, otherwise one canonical choice at index 0 whose delta carries the
content (if truthy) and the mapped tool-call fragments. -/
def transformStreamingChunk (cfg : ModelConfig) (ctx : JsCtx)
    (data : DSStreamData) : Option StreamingChunk :=
  match data.choices.bind List.head? with
  | none => none
  | some choice =>
      match choice.delta with
      | none => none
      | some delta =>
          some
            { id := strTruthyD data.id (ctx.reqId 0),
              model := strTruthyD data.model cfg.model,
              created := natTruthyD data.created ctx.now,
              choices :=
                [{ index := 0,
                   delta :=
                     { content := if strTruthy delta.content then delta.content else none,
                       toolCalls := delta.tool_calls.map (fun l => l.map (fun tc =>
                         { id := tc.id, type := some "function",
                           function := some
                             { name := tc.function.bind (·.name),
                               arguments := tc.function.bind (·.arguments) } })) },
                   finishReason := mapFinishReason choice.finish_reason }],
              usage := data.usage.map (fun u =>
                { promptTokens := u.prompt_tokens.getD 0,
                  completionTokens := u.completion_tokens.getD 0,
                  totalTokens := u.total_tokens.getD 0 }) }

/-- Transcribes the consumption loop of `generateContentStream` over the
elements yielded by the transport helper: an unsuccessful element is turned
into a terminal thrown error (wrapped twice, by the inner `throw` and the
outer `catch`), a `done` element ends the stream cleanly, a data element is
transformed and yielded when the transform is non-null.  The result is the
list of chunks delivered to the consumer before the stream ended, together
with the terminal error, if any. -/
def streamLoop (cfg : ModelConfig) (ctx : JsCtx)
    (elems : List (BaseModelClient.SSEElem DSStreamData)) :
    List StreamingChunk × Option String :=
  match elems with
  | [] => ([], none)
  | e :: rest =>
      if !e.success then
        ([], some ("DeepSeek streaming failed: DeepSeek API streaming error: "
                   ++ e.error.getD "undefined"))
      else if e.done then ([], none)
      else
        let tail := streamLoop cfg ctx rest
        match e.data with
        | some d =>
            match transformStreamingChunk cfg ctx d with
            | some c => (c :: tail.1, tail.2)
            | none => tail
        | none => tail

/-- The adapter-level streaming sequence: the transport's elements for the
given connection outcome, consumed by the adapter loop. -/
def generateContentStream (cfg : ModelConfig) (ctx : JsCtx)
    (parse : String → Option DSStreamData) (conn : BaseModelClient.ConnResult) :
    List StreamingChunk × Option String :=
  streamLoop cfg ctx (BaseModelClient.makeStreamingRequest parse conn)

end DeepSeekClient

/-! ## Google client (packages/core/src/models/clients/google.ts) -/

namespace GoogleClient

/-- Transcribes `mapFinishReason` of the Google client. -/
def mapFinishReason (reason : Option String) : Option FinishReason :=
  match reason with
  | none => none
  | some r =>
      if r = "STOP" then some .stop
      else if r = "MAX_TOKENS" then some .length
      else if r = "SAFETY" then some .content_filter
      else if r = "RECITATION" then some .content_filter
      else none

/-- Inline data blob of a Google request part. -/
structure GInlineData where
  mimeType : String
  data : Option String := none

/-- Function call carried in a Google request part (arguments parsed from
the canonical JSON string). -/
structure GReqFunctionCall where
  name : String
  args : Json

/-- Part of a Google request content entry. -/
structure GPart where
  text : Option String := none
  inlineData : Option GInlineData := none
  functionCall : Option GReqFunctionCall := none

/-- One content entry of a Google request (a turn). -/
structure GContent where
  role : String
  parts : List GPart

/-- Parts built from one canonical message body by `transformMessages`. -/
def messageContentParts (content : MessageContent) : List GPart :=
  match content with
  | .str s => [{ text := some s }]
  | .parts ps =>
      ps.foldl (fun acc part =>
        if part.type = "text" then acc ++ [{ text := part.text }]
        else if part.type = "image" then
          let blob : GInlineData :=
            { mimeType := strTruthyD part.mimeType "image/jpeg",
              data := part.data }
          acc ++ [{ inlineData := some blob }]
        else acc) []

/-- Function-call parts appended for the tool calls of one canonical
message; fails when `JSON.parse` fails on an arguments payload. -/
def toolCallParts (ctx : JsCtx) (toolCalls : List ToolCall) :
    Option (List GPart) :=
  toolCalls.mapM (fun tc =>
    (ctx.jsonParse tc.function.arguments).map (fun args =>
      { functionCall := some { name := tc.function.name, args := args } }))

/-- One iteration of the `transformMessages` loop: a system message is
skipped (`continue`); any other message appends one content entry whose
role renames assistant to "model". -/
def messageStep (ctx : JsCtx) (acc : List GContent) (message : ChatMessage) :
    Option (List GContent) :=
  if message.role = .system then pure acc
  else do
    let base := messageContentParts message.content
    let withCalls ←
      match message.toolCalls with
      | some tcs => (toolCallParts ctx tcs).map (fun extra => base ++ extra)
      | none => pure base
    pure (acc ++
      [{ role := if message.role = .assistant then "model"
                 else message.role.toStringValue,
         parts := withCalls }])

/-- Transcribes `transformMessages`: system messages are skipped entirely;
every other message becomes one content entry whose role renames assistant
to "model"; text/image parts and then function-call parts are collected. -/
def transformMessages (ctx : JsCtx) (messages : List ChatMessage) :
    Option (List GContent) :=
  messages.foldlM (messageStep ctx) []

/-- One function declaration of a Google tool. -/
structure GFuncDecl where
  name : String
  description : String
  parameters : Json

/-- Google tool wrapper. -/
structure GTool where
  functionDeclarations : List GFuncDecl

/-- Transcribes `transformTools`. -/
def transformTools (tools : List ToolDefinition) : List GTool :=
  tools.map (fun tool =>
    { functionDeclarations :=
        [{ name := tool.function.name,
           description := tool.function.description,
           parameters := tool.function.parameters }] })

/-- Generation config of a Google request body. -/
structure GGenerationConfig where
  maxOutputTokens : Option Nat := none
  temperature : Option Rat := none
  topP : Option Rat := none
  topK : Option Nat := none
  stopSequences : Option (List String) := none

/-- System instruction of a Google request body. -/
structure GSystemInstruction where
  parts : List GPart

/-- Google request body. -/
structure GoogleRequestBody where
  contents : List GContent
  generationConfig : GGenerationConfig
  tools : Option (List GTool) := none
  systemInstruction : Option GSystemInstruction := none

/-- Transcribes `buildRequestBody`: the contents come from
`transformMessages`, and `systemInstruction` is populated only from the
truthy `systemPrompt` generation parameter. -/
def buildRequestBody (ctx : JsCtx) (request : GenerationRequest) :
    Option GoogleRequestBody :=
  (transformMessages ctx request.messages).map (fun contents =>
    { contents := contents,
      generationConfig :=
        { maxOutputTokens := request.parameters.bind (·.maxTokens),
          temperature := request.parameters.bind (·.temperature),
          topP := request.parameters.bind (·.topP),
          topK := request.parameters.bind (·.topK),
          stopSequences := request.parameters.bind (·.stopSequences) },
      tools := (request.tools).map transformTools,
      systemInstruction :=
        if strTruthy (request.parameters.bind (·.systemPrompt)) then
          some { parts := [{ text := request.parameters.bind (·.systemPrompt) }] }
        else none })

/-- Function call of a Google response part. -/
structure GRespFunctionCall where
  name : String
  args : Option Json := none

/-- Part of a Google response candidate. -/
structure GRespPart where
  text : Option String := none
  functionCall : Option GRespFunctionCall := none

/-- Content of a Google response candidate. -/
structure GContentData where
  parts : Option (List GRespPart) := none

/-- Google response candidate. -/
structure GCandidate where
  content : Option GContentData := none
  finishReason : Option String := none

/-- Usage metadata of a Google response. -/
structure GUsageMetadata where
  promptTokenCount : Option Nat := none
  candidatesTokenCount : Option Nat := none
  totalTokenCount : Option Nat := none

/-- Payload of a Google response (streaming or not). -/
structure GRespData where
  candidates : Option (List GCandidate) := none
  usageMetadata : Option GUsageMetadata := none

/-- The parts of the first candidate (`candidate?.content?.parts || []`). -/
def firstCandidateParts (data : GRespData) : List GRespPart :=
  ((((data.candidates.bind List.head?).bind (·.content)).bind (·.parts)).getD [])

/-- One iteration of the `transformResponse` part loop: truthy text is
concatenated; otherwise a function call becomes a canonical tool call with a
freshly generated id and stringified arguments (`args || {}`). -/
def responseStep (ctx : JsCtx) (acc : String × List ToolCall × Nat)
    (part : GRespPart) : String × List ToolCall × Nat :=
  if strTruthy part.text then
    (acc.1 ++ part.text.getD "", acc.2.1, acc.2.2)
  else
    match part.functionCall with
    | some fc =>
        (acc.1,
         acc.2.1 ++ [{ id := ctx.reqId acc.2.2, type := "function",
                       function := { name := fc.name,
                                     arguments := ctx.jsonStringify
                                       (jsonTruthyD fc.args (.obj [])) } }],
         acc.2.2 + 1)
    | none => acc

/-- Loop of `transformResponse` over the candidate parts. -/
def responseParts (ctx : JsCtx) (parts : List GRespPart) :
    String × List ToolCall × Nat :=
  parts.foldl (responseStep ctx) ("", [], 0)

/-- Transcribes `transformResponse` of the Google client. -/
def transformResponse (cfg : ModelConfig) (ctx : JsCtx) (data : GRespData) :
    GenerationResponse :=
  let parts := firstCandidateParts data
  let folded := responseParts ctx parts
  let message : ChatMessage :=
    { role := .assistant, content := .str folded.1,
      toolCalls := if folded.2.1.length > 0 then some folded.2.1 else none }
  { id := ctx.reqId folded.2.2,
    model := cfg.model,
    created := ctx.now,
    choices := [{ index := 0, message := message,
                  finishReason := mapFinishReason
                    ((data.candidates.bind List.head?).bind (·.finishReason)) }],
    usage := data.usageMetadata.map (fun u =>
      { promptTokens := u.promptTokenCount.getD 0,
        completionTokens := u.candidatesTokenCount.getD 0,
        totalTokens := u.totalTokenCount.getD 0 }) }

/-- Transcribes `transformStreamingChunk` of the Google client: only truthy
text parts are folded into the delta content; function-call parts are
ignored and no tool calls are ever emitted. -/
def transformStreamingChunk (cfg : ModelConfig) (ctx : JsCtx)
    (data : GRespData) : StreamingChunk :=
  let parts := firstCandidateParts data
  let deltaContent := parts.foldl (fun acc part =>
    if strTruthy part.text then some ((acc.getD "") ++ part.text.getD "")
    else acc) (none : Option String)
  { id := ctx.reqId 0,
    model := cfg.model,
    created := ctx.now,
    choices := [{ index := 0,
                  delta := { content := deltaContent },
                  finishReason := mapFinishReason
                    ((data.candidates.bind List.head?).bind (·.finishReason)) }],
    usage := data.usageMetadata.map (fun u =>
      { promptTokens := u.promptTokenCount.getD 0,
        completionTokens := u.candidatesTokenCount.getD 0,
        totalTokens := u.totalTokenCount.getD 0 }) }

end GoogleClient

/-! ## Anthropic client (packages/core/src/models/clients/anthropic.ts) -/

namespace AnthropicClient

/-- Transcribes `mapFinishReason` of the Anthropic client. -/
def mapFinishReason (reason : Option String) : Option FinishReason :=
  match reason with
  | none => none
  | some r =>
      if r = "end_turn" then some .stop
      else if r = "max_tokens" then some .length
      else if r = "tool_use" then some .tool_calls
      else if r = "stop_sequence" then some .stop
      else none

/-- Transcribes `countTokens` of the Anthropic client (identical estimate
logic to the DeepSeek client). -/
def countTokens (request : TokenCountRequest) : TokenCountResponse :=
  let totalText := String.intercalate "\n"
    (request.messages.map (fun msg => BaseModelClient.extractTextFromContent msg.content))
  let estimatedTokens := (totalText.length + 3) / 4
  { totalTokens := estimatedTokens,
    promptTokens := some estimatedTokens,
    metadata := some [("estimated", Json.bool true)] }

/-- Transcribes `separateSystemMessage`: the system messages are filtered
out and their extracted texts newline-joined; the remaining messages keep
their relative order. -/
def separateSystemMessage (messages : List ChatMessage) :
    Option String × List ChatMessage :=
  let systemMessages := messages.filter (fun msg => msg.role = .system)
  let otherMessages := messages.filter (fun msg => msg.role ≠ .system)
  let systemPrompt :=
    if systemMessages.length > 0 then
      some (String.intercalate "\n" (systemMessages.map
        (fun msg => BaseModelClient.extractTextFromContent msg.content)))
    else none
  (systemPrompt, otherMessages)

/-- A content block of an Anthropic request message. -/
inductive AContentBlock where
  | text (text : String)
  | image (media_type : String) (data : Option String)
  | tool_use (id : String) (name : String) (input : Json)
  | tool_result (tool_use_id : Option String) (content : MessageContent)

/-- One message of an Anthropic request body. -/
structure AMessage where
  role : String
  content : List AContentBlock

/-- Content blocks built from one canonical message body. -/
def messageContentBlocks (content : MessageContent) : List AContentBlock :=
  match content with
  | .str s => [.text s]
  | .parts ps =>
      ps.foldl (fun acc part =>
        if part.type = "text" then acc ++ [.text (part.text.getD "")]
        else if part.type = "image" then
          acc ++ [.image (strTruthyD part.mimeType "image/jpeg") part.data]
        else acc) []

/-- Transcribes `transformMessages` of the Anthropic client: text/image
blocks, then `tool_use` blocks for assistant tool calls (whose arguments
must JSON-parse), and a rewrite of tool-role messages into user messages
holding one `tool_result` block. -/
def transformMessages (ctx : JsCtx) (messages : List ChatMessage) :
    Option (List AMessage) :=
  messages.mapM (fun message => do
    let base := messageContentBlocks message.content
    let content ←
      match message.toolCalls with
      | some tcs =>
          (tcs.mapM (fun tc =>
            (ctx.jsonParse tc.function.arguments).map (fun input =>
              AContentBlock.tool_use tc.id tc.function.name input))).map
            (fun blocks => base ++ blocks)
      | none => pure base
    if message.role = .tool then
      pure { role := "user",
             content := [.tool_result message.toolCallId message.content] }
    else
      pure { role := message.role.toStringValue, content := content })

/-- One tool of an Anthropic request body. -/
structure ATool where
  name : String
  description : String
  input_schema : Json

/-- Transcribes `transformTools` of the Anthropic client. -/
def transformTools (tools : List ToolDefinition) : List ATool :=
  tools.map (fun tool =>
    { name := tool.function.name,
      description := tool.function.description,
      input_schema := tool.function.parameters })

/-- Anthropic request body. -/
structure AnthropicRequestBody where
  model : String
  max_tokens : Nat
  messages : List AMessage
  system : Option String := none
  temperature : Option Rat := none
  top_p : Option Rat := none
  stop_sequences : Option (List String) := none
  tools : Option (List ATool) := none

/-- Transcribes `buildRequestBody` of the Anthropic client.  Note the
truthiness check on the separated system prompt: the `system` field is
emitted only when the newline-join of the system texts is non-empty. -/
def buildRequestBody (cfg : ModelConfig) (ctx : JsCtx)
    (request : GenerationRequest) : Option AnthropicRequestBody :=
  let separated := separateSystemMessage request.messages
  (transformMessages ctx separated.2).map (fun msgs =>
    { model := cfg.model,
      max_tokens := natTruthyD (request.parameters.bind (·.maxTokens)) 1000,
      messages := msgs,
      system := if strTruthy separated.1 then separated.1 else none,
      temperature := request.parameters.bind (·.temperature),
      top_p := request.parameters.bind (·.topP),
      stop_sequences :=
        match request.parameters.bind (·.stopSequences) with
        | some l => if l.length ≠ 0 then some l else none
        | none => none,
      tools :=
        match request.tools with
        | some l => if l.length ≠ 0 then some (transformTools l) else none
        | none => none })

/-- Content block of an Anthropic non-streaming response. -/
inductive ARespBlock where
  | text (text : Option String)
  | tool_use (id : String) (name : String) (input : Option Json)
  | other (type : String)

/-- Usage block of an Anthropic response. -/
structure AUsage where
  input_tokens : Option Nat := none
  output_tokens : Option Nat := none

/-- Payload of an Anthropic non-streaming response. -/
structure ARespData where
  id : Option String := none
  model : Option String := none
  content : Option (List ARespBlock) := none
  stop_reason : Option String := none
  usage : Option AUsage := none

/-- Transcribes `transformResponse` of the Anthropic client. -/
def transformResponse (cfg : ModelConfig) (ctx : JsCtx) (data : ARespData) :
    GenerationResponse :=
  let folded := (data.content.getD []).foldl (fun acc block =>
    match block with
    | .text t => (jsAppendStr acc.1 t, acc.2)
    | .tool_use i n input =>
        (acc.1, acc.2 ++ [{ id := i, type := "function",
                            function := { name := n,
                                          arguments := ctx.jsonStringify
                                            (jsonTruthyD input (.obj [])) } }])
    | .other _ => acc) ("", ([] : List ToolCall))
  let message : ChatMessage :=
    { role := .assistant, content := .str folded.1,
      toolCalls := if folded.2.length > 0 then some folded.2 else none }
  { id := strTruthyD data.id (ctx.reqId 0),
    model := strTruthyD data.model cfg.model,
    created := ctx.now,
    choices := [{ index := 0, message := message,
                  finishReason := mapFinishReason data.stop_reason }],
    usage := data.usage.map (fun u =>
      { promptTokens := u.input_tokens.getD 0,
        completionTokens := u.output_tokens.getD 0,
        totalTokens := u.input_tokens.getD 0 + u.output_tokens.getD 0 }) }

/-- Message header of an Anthropic `message_start` event. -/
structure AMsgInfo where
  id : Option String := none
  model : Option String := none

/-- Delta payload of an Anthropic streaming event. -/
structure ADeltaInfo where
  type : Option String := none
  text : Option String := none
  stop_reason : Option String := none

/-- Payload of an Anthropic streaming event. -/
structure AStreamData where
  type : String
  message : Option AMsgInfo := none
  delta : Option ADeltaInfo := none
  usage : Option AUsage := none

/-- Transcribes `transformStreamingChunk` of the Anthropic client: each
named event type is special-cased; events other than `message_start`,
`content_block_delta` with a `text_delta`, and `message_delta` produce no
chunk. -/
def transformStreamingChunk (cfg : ModelConfig) (ctx : JsCtx)
    (data : AStreamData) : Option StreamingChunk :=
  if data.type = "message_start" then
    some { id := strTruthyD (data.message.bind (·.id)) (ctx.reqId 0),
           model := strTruthyD (data.message.bind (·.model)) cfg.model,
           created := ctx.now,
           choices := [{ index := 0, delta := {}, finishReason := none }] }
  else if data.type = "content_block_delta" then
    if data.delta.bind (·.type) = some "text_delta" then
      some { id := ctx.reqId 0,
             model := cfg.model,
             created := ctx.now,
             choices := [{ index := 0,
                           delta := { content := data.delta.bind (·.text) },
                           finishReason := none }] }
    else none
  else if data.type = "message_delta" then
    some { id := ctx.reqId 0,
           model := cfg.model,
           created := ctx.now,
           choices := [{ index := 0, delta := {},
                         finishReason := mapFinishReason
                           (data.delta.bind (·.stop_reason)) }],
           usage := data.usage.map (fun u =>
             { promptTokens := 0,
               completionTokens := u.output_tokens.getD 0,
               totalTokens := u.output_tokens.getD 0 }) }
  else none

end AnthropicClient

/-! ## Qwen client (packages/core/src/models/clients/qwen.ts) -/

namespace QwenClient

/-- Transcribes `mapFinishReason` of the Qwen client (identity on the four
canonical codes, `null` otherwise). -/
def mapFinishReason (reason : Option String) : Option FinishReason :=
  match reason with
  | none => none
  | some r =>
      if r = "stop" then some .stop
      else if r = "length" then some .length
      else if r = "tool_calls" then some .tool_calls
      else if r = "content_filter" then some .content_filter
      else none

/-- Transcribes `countTokens` of the Qwen client (identical estimate logic
to the DeepSeek client). -/
def countTokens (request : TokenCountRequest) : TokenCountResponse :=
  let totalText := String.intercalate "\n"
    (request.messages.map (fun msg => BaseModelClient.extractTextFromContent msg.content))
  let estimatedTokens := (totalText.length + 3) / 4
  { totalTokens := estimatedTokens,
    promptTokens := some estimatedTokens,
    metadata := some [("estimated", Json.bool true)] }

/-- Function payload of a tool call in a Qwen (DashScope) non-streaming
response; the arguments arrive as a JSON value. -/
structure QRespFn where
  name : String
  arguments : Json

/-- Tool call of a Qwen non-streaming response. -/
structure QRespToolCall where
  id : Option String := none
  function : QRespFn

/-- Output block of a Qwen non-streaming response. -/
structure QRespOutput where
  text : Option String := none
  tool_calls : Option (List QRespToolCall) := none
  finish_reason : Option String := none

/-- Usage block of a Qwen response. -/
structure QUsage where
  input_tokens : Option Nat := none
  output_tokens : Option Nat := none
  total_tokens : Option Nat := none

/-- Payload of a Qwen non-streaming response. -/
structure QRespData where
  request_id : Option String := none
  output : Option QRespOutput := none
  usage : Option QUsage := none

/-- Transcribes `transformResponse` of the Qwen client: fails on a missing
output block; tool calls are mapped with a generated id when the vendor id
is falsy, and their JSON arguments are stringified. -/
def transformResponse (cfg : ModelConfig) (ctx : JsCtx) (data : QRespData) :
    Except String GenerationResponse :=
  match data.output with
  | none => .error "No output in Qwen response"
  | some output =>
      let folded :=
        match output.tool_calls with
        | some l =>
            if l.length ≠ 0 then
              let mapped := l.foldl
                (fun (acc : List ToolCall × Nat) (tc : QRespToolCall) =>
                (acc.1 ++ [{ id := strTruthyD tc.id (ctx.reqId acc.2),
                             type := "function",
                             function :=
                               { name := tc.function.name,
                                 arguments := ctx.jsonStringify tc.function.arguments }
                           : ToolCall }],
                 if strTruthy tc.id then acc.2 else acc.2 + 1)) ([], 0)
              (some mapped.1, mapped.2)
            else (none, 0)
        | none => (none, 0)
      let message : ChatMessage :=
        { role := .assistant, content := .str (strTruthyD output.text ""),
          toolCalls := folded.1 }
      .ok
        { id := strTruthyD data.request_id (ctx.reqId folded.2),
          model := cfg.model,
          created := ctx.now,
          choices := [{ index := 0, message := message,
                        finishReason := mapFinishReason output.finish_reason }],
          usage := data.usage.map (fun u =>
            { promptTokens := u.input_tokens.getD 0,
              completionTokens := u.output_tokens.getD 0,
              totalTokens := u.total_tokens.getD 0 }) }

/-- Function payload of a streamed Qwen tool call. -/
structure QStreamFn where
  name : Option String := none
  arguments : Option Json := none

/-- Streamed Qwen tool call. -/
structure QStreamToolCall where
  id : Option String := none
  function : Option QStreamFn := none

/-- Output block of a Qwen streaming chunk. -/
structure QStreamOutput where
  text : Option String := none
  tool_calls : Option (List QStreamToolCall) := none
  finish_reason : Option String := none

/-- Payload of a Qwen streaming chunk. -/
structure QStreamData where
  request_id : Option String := none
  output : Option QStreamOutput := none
  usage : Option QUsage := none

/-- Transcribes `transformStreamingChunk` of the Qwen client: `null` when
the chunk has no output block, otherwise one canonical choice at index 0. -/
def transformStreamingChunk (cfg : ModelConfig) (ctx : JsCtx)
    (data : QStreamData) : Option StreamingChunk :=
  match data.output with
  | none => none
  | some output =>
      let folded :=
        match output.tool_calls with
        | some l =>
            let mapped := l.foldl
              (fun (acc : List ToolCallFragment × Nat) (tc : QStreamToolCall) =>
              (acc.1 ++ [{ id := some (strTruthyD tc.id (ctx.reqId acc.2)),
                           type := some "function",
                           function := some
                             { name := tc.function.bind (·.name),
                               arguments := some (ctx.jsonStringify
                                 (jsonTruthyD (tc.function.bind (·.arguments))
                                   (.obj []))) }
                         : ToolCallFragment }],
               if strTruthy tc.id then acc.2 else acc.2 + 1)) ([], 0)
            (some mapped.1, mapped.2)
        | none => (none, 0)
      some
        { id := strTruthyD data.request_id (ctx.reqId folded.2),
          model := cfg.model,
          created := ctx.now,
          choices :=
            [{ index := 0,
               delta :=
                 { content := if strTruthy output.text then output.text else none,
                   toolCalls := folded.1 },
               finishReason := mapFinishReason output.finish_reason }],
          usage := data.usage.map (fun u =>
            { promptTokens := u.input_tokens.getD 0,
              completionTokens := u.output_tokens.getD 0,
              totalTokens := u.total_tokens.getD 0 }) }

end QwenClient

/-! ## Model manager (packages/core/src/models/manager.ts) -/

namespace ModelManager

/-- An adapter instance constructed by `createClient`.  `instanceId` models
JavaScript reference identity: each `new <Vendor>ModelClient(...)` yields a
fresh id. -/
structure ClientInst where
  provider : ModelProvider
  config : ModelConfig
  authConfig : AuthConfig
  instanceId : Nat
deriving DecidableEq

/-- Registry state: the model catalog and the client cache, both JavaScript
`Map`s modelled as insertion-ordered association lists, plus the counter
producing instance identities. -/
structure ManagerState where
  models : List (String × ModelConfig)
  clients : List (String × ClientInst)
  nextClientId : Nat

/-- JavaScript `Map.set`: replace in place when the key exists, append
otherwise. -/
def mapSet {β : Type} (k : String) (v : β) : List (String × β) → List (String × β)
  | [] => [(k, v)]
  | (k', v') :: rest =>
      if k' = k then (k, v) :: rest else (k', v') :: mapSet k v rest

/-- JavaScript `Map.get` (first, and only, binding of the key). -/
def mapGet {β : Type} (m : List (String × β)) (k : String) : Option β :=
  (m.find? (fun e => e.1 = k)).map (·.2)

/-- Transcribes `registerModel`. -/
def registerModel (st : ManagerState) (config : ModelConfig) : ManagerState :=
  { st with models := mapSet config.model config st.models }

/-- Transcribes `getModel`. -/
def getModel (st : ManagerState) (modelName : String) : Option ModelConfig :=
  mapGet st.models modelName

/-- The model configurations registered by `registerDefaultModels`, in
registration order. -/
def defaultModelConfigs : List ModelConfig :=
  [{ provider := .GOOGLE_GEMINI, model := "gemini-2.5-flash",
     displayName := some "Gemini 2.5 Flash",
     capabilities := {
       textGeneration := true, streaming := true,
       functionCalling := true, multimodal := true, embedding := false,
       tokenCounting := true, maxTokens := some 8192,
       maxContextLength := some 1000000,
       supportedMimeTypes := some ["image/jpeg", "image/png", "image/webp"] } },
   { provider := .GOOGLE_GEMINI, model := "gemini-2.5-pro",
     displayName := some "Gemini 2.5 Pro",
     capabilities := {
       textGeneration := true, streaming := true,
       functionCalling := true, multimodal := true, embedding := false,
       tokenCounting := true, maxTokens := some 8192,
       maxContextLength := some 2000000,
       supportedMimeTypes := some ["image/jpeg", "image/png", "image/webp"] } },
   { provider := .ANTHROPIC_CLAUDE, model := "claude-3-5-sonnet-20241022",
     displayName := some "Claude 3.5 Sonnet",
     capabilities := {
       textGeneration := true, streaming := true,
       functionCalling := true, multimodal := true, embedding := false,
       tokenCounting := false, maxTokens := some 8192,
       maxContextLength := some 200000,
       supportedMimeTypes := some ["image/jpeg", "image/png", "image/webp"] } },
   { provider := .ANTHROPIC_CLAUDE, model := "claude-3-5-haiku-20241022",
     displayName := some "Claude 3.5 Haiku",
     capabilities := {
       textGeneration := true, streaming := true,
       functionCalling := true, multimodal := true, embedding := false,
       tokenCounting := false, maxTokens := some 8192,
       maxContextLength := some 200000,
       supportedMimeTypes := some ["image/jpeg", "image/png", "image/webp"] } },
   { provider := .ANTHROPIC_CLAUDE, model := "claude-3-opus-20240229",
     displayName := some "Claude 3 Opus",
     capabilities := {
       textGeneration := true, streaming := true,
       functionCalling := true, multimodal := true, embedding := false,
       tokenCounting := false, maxTokens := some 4096,
       maxContextLength := some 200000,
       supportedMimeTypes := some ["image/jpeg", "image/png", "image/webp"] } },
   { provider := .OPENAI_GPT, model := "gpt-4",
     displayName := some "GPT-4",
     capabilities := {
       textGeneration := true, streaming := true,
       functionCalling := true, multimodal := false, embedding := false,
       tokenCounting := false, maxTokens := some 4096,
       maxContextLength := some 8192, supportedMimeTypes := some [] } },
   { provider := .OPENAI_GPT, model := "gpt-4-turbo",
     displayName := some "GPT-4 Turbo",
     capabilities := {
       textGeneration := true, streaming := true,
       functionCalling := true, multimodal := true, embedding := false,
       tokenCounting := false, maxTokens := some 4096,
       maxContextLength := some 128000,
       supportedMimeTypes := some ["image/jpeg", "image/png", "image/webp"] } },
   { provider := .OPENAI_GPT, model := "gpt-3.5-turbo",
     displayName := some "GPT-3.5 Turbo",
     capabilities := {
       textGeneration := true, streaming := true,
       functionCalling := true, multimodal := false, embedding := false,
       tokenCounting := false, maxTokens := some 4096,
       maxContextLength := some 16385, supportedMimeTypes := some [] } },
   { provider := .DEEPSEEK, model := "deepseek-chat",
     displayName := some "DeepSeek Chat",
     capabilities := {
       textGeneration := true, streaming := true,
       functionCalling := true, multimodal := false, embedding := false,
       tokenCounting := false, maxTokens := some 4096,
       maxContextLength := some 32768, supportedMimeTypes := some [] } },
   { provider := .DEEPSEEK, model := "deepseek-coder",
     displayName := some "DeepSeek Coder",
     capabilities := {
       textGeneration := true, streaming := true,
       functionCalling := true, multimodal := false, embedding := false,
       tokenCounting := false, maxTokens := some 4096,
       maxContextLength := some 16384, supportedMimeTypes := some [] } },
   { provider := .DEEPSEEK, model := "deepseek-v3",
     displayName := some "DeepSeek V3",
     capabilities := {
       textGeneration := true, streaming := true,
       functionCalling := true, multimodal := false, embedding := false,
       tokenCounting := false, maxTokens := some 8192,
       maxContextLength := some 64000, supportedMimeTypes := some [] } },
   { provider := .QWEN, model := "qwen-turbo",
     displayName := some "Qwen Turbo",
     capabilities := {
       textGeneration := true, streaming := true,
       functionCalling := true, multimodal := false, embedding := false,
       tokenCounting := false, maxTokens := some 1500,
       maxContextLength := some 6000, supportedMimeTypes := some [] } },
   { provider := .QWEN, model := "qwen-plus",
     displayName := some "Qwen Plus",
     capabilities := {
       textGeneration := true, streaming := true,
       functionCalling := true, multimodal := false, embedding := false,
       tokenCounting := false, maxTokens := some 2000,
       maxContextLength := some 32000, supportedMimeTypes := some [] } },
   { provider := .QWEN, model := "qwen-max",
     displayName := some "Qwen Max",
     capabilities := {
       textGeneration := true, streaming := true,
       functionCalling := true, multimodal := false, embedding := false,
       tokenCounting := false, maxTokens := some 2000,
       maxContextLength := some 8000, supportedMimeTypes := some [] } },
   { provider := .QWEN, model := "qwen2.5-coder-32b-instruct",
     displayName := some "Qwen2.5-Coder 32B",
     capabilities := {
       textGeneration := true, streaming := true,
       functionCalling := true, multimodal := false, embedding := false,
       tokenCounting := false, maxTokens := some 8192,
       maxContextLength := some 131072, supportedMimeTypes := some [] } },
   { provider := .QWEN, model := "qwen2.5-coder-7b-instruct",
     displayName := some "Qwen2.5-Coder 7B",
     capabilities := {
       textGeneration := true, streaming := true,
       functionCalling := true, multimodal := false, embedding := false,
       tokenCounting := false, maxTokens := some 8192,
       maxContextLength := some 131072, supportedMimeTypes := some [] } }]

/-- The registry state produced by the `ModelManager` constructor. -/
def initialState : ManagerState :=
  defaultModelConfigs.foldl registerModel
    { models := [], clients := [], nextClientId := 0 }

/-- The cache key `` `${modelName}-${authConfig.provider}-${authConfig.method}` ``. -/
def clientKey (modelName : String) (authConfig : AuthConfig) : String :=
  modelName ++ "-" ++ authConfig.provider ++ "-" ++ authConfig.method

/-- Whether the `createClient` switch has a client class for the provider. -/
def supportedProvider (p : ModelProvider) : Bool :=
  match p with
  | .GOOGLE_GEMINI => true
  | .ANTHROPIC_CLAUDE => true
  | .DEEPSEEK => true
  | .QWEN => true
  | _ => false

/-- Transcribes `createClient`.  The outcome of the adapter's `validate()`
call (a real network request) is supplied by the oracle `validateOutcome`.
The returned `Nat` counts the network requests the call performs:
`validate()` issues exactly one `generateContent` request; every other path
performs none. -/
def createClient (validateOutcome : ClientInst → Bool) (st : ManagerState)
    (modelName : String) (authConfig : AuthConfig) :
    Except String ClientInst × ManagerState × Nat :=
  let key := clientKey modelName authConfig
  match mapGet st.clients key with
  | some client => (.ok client, st, 0)
  | none =>
      match getModel st modelName with
      | none => (.error ("Unknown model: " ++ modelName), st, 0)
      | some modelConfig =>
          if supportedProvider modelConfig.provider then
            let client : ClientInst :=
              { provider := modelConfig.provider, config := modelConfig,
                authConfig := authConfig, instanceId := st.nextClientId }
            let st1 := { st with nextClientId := st.nextClientId + 1 }
            if validateOutcome client then
              (.ok client,
               { st1 with clients := mapSet key client st1.clients }, 1)
            else
              (.error ("Failed to validate model client for " ++ modelName),
               st1, 1)
          else
            (.error ("Unsupported model provider: " ++ modelConfig.provider.value),
             st, 0)

/-- Transcribes `clearClientCache`. -/
def clearClientCache (st : ManagerState) : ManagerState :=
  { st with clients := [] }

end ModelManager

/-! ## Streaming tool-call accumulator
(packages/cli/src/ui/hooks/useMultiModelStream.ts) -/

namespace MultiModelStream

/-- One value of the `toolCallsMap`: the records the hook stores always
carry an id string (the truthy fragment id or the canonical tool-call id)
and a function object with string name and arguments, flattened here.
Insertion order of the map is the list order. -/
structure StoredToolCall where
  id : String
  type : Option String
  name : String
  arguments : String
deriving DecidableEq

/-- Transcribes the per-fragment accumulation inside the streaming loop:
a truthy id opens a record or updates the existing one (name replaced when
truthy, arguments appended by concatenation); a fragment with a falsy id
but truthy arguments appends to the most recently opened record; anything
else is ignored. -/
def accumulateFragment (m : List StoredToolCall) (tc : ToolCallFragment) :
    List StoredToolCall :=
  let fragName := tc.function.bind (·.name)
  let fragArgs := tc.function.bind (·.arguments)
  if strTruthy tc.id then
    let i := tc.id.getD ""
    if m.any (fun r => r.id = i) then
      m.map (fun r =>
        if r.id = i then
          { r with
            name := if strTruthy fragName then fragName.getD "" else r.name,
            arguments := if strTruthy fragArgs then r.arguments ++ fragArgs.getD ""
                         else r.arguments }
        else r)
    else
      m ++ [{ id := i, type := tc.type,
              name := fragName.getD "", arguments := fragArgs.getD "" }]
  else if strTruthy fragArgs then
    match m.getLast? with
    | some last =>
        m.dropLast ++ [{ last with arguments := last.arguments ++ fragArgs.getD "" }]
    | none => m
  else m

/-- Insert-or-overwrite of a stored record under its id, preserving the
insertion order of an existing key (JavaScript `Map.set`). -/
def setStored (m : List StoredToolCall) (r : StoredToolCall) :
    List StoredToolCall :=
  if m.any (fun r' => r'.id = r.id) then
    m.map (fun r' => if r'.id = r.id then r else r')
  else m ++ [r]

/-- The projection of one canonical streaming chunk that the accumulation
loop reads: the delta fragments and any complete tool calls carried in a
non-delta `message` field. -/
structure AccChunk where
  deltaToolCalls : Option (List ToolCallFragment) := none
  messageToolCalls : Option (List ToolCall) := none

/-- Transcribes the handling of one chunk: first the delta fragments are
accumulated, then complete non-delta tool calls with truthy ids are
inserted/overwritten directly. -/
def processChunk (m : List StoredToolCall) (c : AccChunk) :
    List StoredToolCall :=
  let m1 :=
    match c.deltaToolCalls with
    | some frags => frags.foldl accumulateFragment m
    | none => m
  match c.messageToolCalls with
  | some tcs =>
      tcs.foldl (fun acc tc =>
        if tc.id ≠ "" then
          setStored acc { id := tc.id, type := some tc.type,
                          name := tc.function.name,
                          arguments := tc.function.arguments }
        else acc) m1
  | none => m1

/-- The accumulated tool-call records after feeding a chunk sequence to a
fresh map. -/
def accumulateChunks (chunks : List AccChunk) : List StoredToolCall :=
  chunks.foldl processChunk []

/-- A scheduled tool-call request built after stream termination. -/
structure ToolCallRequest where
  callId : String
  name : String
  args : Json
  isClientInitiated : Bool

/-- Property lookup on the fields of a JSON object. -/
def jsonObjGet (fields : List (String × Json)) (k : String) : Option Json :=
  (fields.find? (fun f => f.1 = k)).map (·.2)

/-- Transcribes the per-record processing after stream termination: truthy
argument text is JSON-parsed; on failure the raw text is kept inspectable
under a `content` key and a diagnostic is logged; the `write_file` branch
resolves a relative `file_path`; the record always becomes one request. -/
def processOneToolCall (ctx : JsCtx) (tc : StoredToolCall) :
    ToolCallRequest × List String :=
  let parsed :=
    if tc.arguments ≠ "" then
      match ctx.jsonParse tc.arguments with
      | some j => (j, ([] : List String))
      | none => (Json.obj [("content", Json.str tc.arguments)],
                 ["Failed to parse tool call arguments as JSON"])
    else (Json.obj [], ([] : List String))
  let args :=
    if tc.name = "write_file" then
      match parsed.1 with
      | Json.obj fields =>
          match jsonObjGet fields "file_path" with
          | some (Json.str p) =>
              if jsStartsWith p "/" then parsed.1
              else Json.obj (fields.map (fun f =>
                if f.1 = "file_path" then (f.1, Json.str (ctx.resolvePath p))
                else f))
          | _ => parsed.1
      | _ => parsed.1
    else parsed.1
  ({ callId := tc.id,
     name := if tc.name = "" then "unknown" else tc.name,
     args := args, isClientInitiated := false }, parsed.2)

/-- Transcribes the conversion of all accumulated records into scheduled
requests (an `Array.map` in the source, so one request per record) with the
diagnostics logged along the way. -/
def processToolCalls (ctx : JsCtx) (pending : List StoredToolCall) :
    List ToolCallRequest × List String :=
  (pending.map (fun tc => (processOneToolCall ctx tc).1),
   (pending.map (fun tc => (processOneToolCall ctx tc).2)).flatten)

end MultiModelStream

/-! ## Concrete fixtures for witnesses and counterexamples -/

/-- The newline-joined extracted message text of a token-count request (the
`totalText` computed by the estimating `countTokens` implementations). -/
def extractedRequestText (request : TokenCountRequest) : String :=
  String.intercalate "\n"
    (request.messages.map (fun msg => BaseModelClient.extractTextFromContent msg.content))

/-- A host context fixture: its JSON parser always fails, request ids are
the constant "req", the clock reads 7. -/
def ctxFix : JsCtx :=
  { jsonParse := fun _ => none,
    jsonStringify := fun _ => "null",
    resolvePath := fun p => "/cwd/" ++ p,
    reqId := fun _ => "req",
    now := 7 }

/-- A minimal model configuration fixture with model name "m". -/
def cfgFix : ModelConfig :=
  { provider := .DEEPSEEK, model := "m",
    capabilities :=
      { textGeneration := true, streaming := true, functionCalling := true,
        multimodal := false, embedding := false, tokenCounting := false } }

/-- An authentication fixture for the DeepSeek provider. -/
def authFix : AuthConfig :=
  { provider := "deepseek", method := "deepseek-api-key", apiKey := some "sk-test" }

/-- A request whose turn sequence starts with a system message and carries
no `systemPrompt` parameter. -/
def googleSystemRequest : GenerationRequest :=
  { messages := [{ role := .system, content := .str "You are terse." },
                 { role := .user, content := .str "Hello" }] }

/-- The Google request body built from `googleSystemRequest`. -/
def googleSystemBody : GoogleClient.GoogleRequestBody :=
  { contents := [{ role := "user", parts := [{ text := some "Hello" }] }],
    generationConfig := {} }

/-- A request with a single system message whose content is the empty
string. -/
def anthropicEmptySystemRequest : GenerationRequest :=
  { messages := [{ role := .system, content := .str "" },
                 { role := .user, content := .str "Hello" }] }

/-- A request with two non-empty system messages around a user turn. -/
def anthropicTwoSystemRequest : GenerationRequest :=
  { messages := [{ role := .system, content := .str "A" },
                 { role := .user, content := .str "Hi" },
                 { role := .system, content := .str "B" }] }

/-- The Anthropic request body built from `anthropicTwoSystemRequest`. -/
def anthropicTwoSystemBody : AnthropicClient.AnthropicRequestBody :=
  { model := "m", max_tokens := 1000,
    messages := [{ role := "user", content := [.text "Hi"] }],
    system := some "A\nB" }

/-- A DeepSeek streaming payload with one delta carrying the text "hi". -/
def dsStreamFix : DeepSeekClient.DSStreamData :=
  { choices := some [{ delta := some { content := some "hi" } }] }

/-- The canonical chunk `dsStreamFix` translates to under `ctxFix`/`cfgFix`. -/
def dsChunkFix : StreamingChunk :=
  { id := "req", model := "m", created := 7,
    choices := [{ index := 0, delta := { content := some "hi" },
                  finishReason := none }] }

/-- A vendor-payload parser recognising exactly the line payload "good". -/
def dsParseFix : String → Option DeepSeekClient.DSStreamData :=
  fun s => if s = "good" then some dsStreamFix else none

/-- A connection whose body delivers one malformed `data:` line followed by
one well-formed line. -/
def connFix : BaseModelClient.ConnResult :=
  .okBody ["data: bad\ndata: good\n"]

/-- A DeepSeek non-streaming payload with one choice. -/
def dsRespDataFix : DeepSeekClient.DSRespData :=
  { choices := some [{ message := some { content := some "ok" } }] }

/-- A Google response payload whose single candidate part carries a
function call and no text. -/
def gRespDataFix : GoogleClient.GRespData :=
  { candidates := some
      [{ content := some
           { parts := some [{ functionCall := some { name := "f" } }] } }] }

/-- First accumulator fragment of the specification example: id "a" with
the argument prefix. -/
def fragAOpen : ToolCallFragment :=
  { id := some "a", function := some { arguments := some "\x7b\"x\":" } }

/-- Second accumulator fragment of the specification example: id "a" with
the argument suffix. -/
def fragAMore : ToolCallFragment :=
  { id := some "a", function := some { arguments := some "1\x7d" } }

/-- An accumulated record whose argument text is not valid JSON. -/
def storedBadArgs : MultiModelStream.StoredToolCall :=
  { id := "call_1", type := some "function", name := "do_thing",
    arguments := "\x7bbroken" }

/-! ## Helper lemmas -/

/-- Taking the first element of a list does not change `head?`. -/
theorem head?_take_one {α : Type} (l : List α) : (l.take 1).head? = l.head? := by
  cases l <;> rfl

/-- `head?` through `Option.map (List.take 1)`. -/
theorem bind_head?_map_take_one {α : Type} (o : Option (List α)) :
    (o.map (List.take 1)).bind List.head? = o.bind List.head? := by
  cases o with
  | none => rfl
  | some l => simp [head?_take_one]

/-- A value just written by `mapSet` is found by `mapGet`. -/
theorem mapGet_mapSet_self {β : Type} (m : List (String × β)) (k : String) (v : β) :
    ModelManager.mapGet (ModelManager.mapSet k v m) k = some v := by
  induction m with
  | nil => simp [ModelManager.mapSet, ModelManager.mapGet]
  | cons e rest ih =>
      by_cases h : e.1 = k
      · simp [ModelManager.mapSet, ModelManager.mapGet, h]
      · simpa [ModelManager.mapSet, ModelManager.mapGet, h] using ih

/-! ## Claim theorems -/

/-- C5: the finish-reason mappings of the Google, Anthropic, DeepSeek and
Qwen clients are total pure functions satisfying the specification tables —
Google: STOP→stop, MAX_TOKENS→length, SAFETY|RECITATION→content_filter;
Anthropic: end_turn|stop_sequence→stop, max_tokens→length,
tool_use→tool_calls; OpenAI-compatible family (DeepSeek, Qwen): identity on
stop/length/tool_calls/content_filter — and every unrecognized or missing
code maps to null (the Lean functions are total, so no code can throw). -/
theorem claim_C5_theorem :
    (GoogleClient.mapFinishReason none = none
      ∧ GoogleClient.mapFinishReason (some "STOP") = some .stop
      ∧ GoogleClient.mapFinishReason (some "MAX_TOKENS") = some .length
      ∧ GoogleClient.mapFinishReason (some "SAFETY") = some .content_filter
      ∧ GoogleClient.mapFinishReason (some "RECITATION") = some .content_filter
      ∧ ∀ r : String, r ≠ "STOP" → r ≠ "MAX_TOKENS" → r ≠ "SAFETY" →
          r ≠ "RECITATION" → GoogleClient.mapFinishReason (some r) = none)
    ∧ (AnthropicClient.mapFinishReason none = none
      ∧ AnthropicClient.mapFinishReason (some "end_turn") = some .stop
      ∧ AnthropicClient.mapFinishReason (some "stop_sequence") = some .stop
      ∧ AnthropicClient.mapFinishReason (some "max_tokens") = some .length
      ∧ AnthropicClient.mapFinishReason (some "tool_use") = some .tool_calls
      ∧ ∀ r : String, r ≠ "end_turn" → r ≠ "max_tokens" → r ≠ "tool_use" →
          r ≠ "stop_sequence" → AnthropicClient.mapFinishReason (some r) = none)
    ∧ (DeepSeekClient.mapFinishReason none = none
      ∧ DeepSeekClient.mapFinishReason (some "stop") = some .stop
      ∧ DeepSeekClient.mapFinishReason (some "length") = some .length
      ∧ DeepSeekClient.mapFinishReason (some "tool_calls") = some .tool_calls
      ∧ DeepSeekClient.mapFinishReason (some "content_filter") = some .content_filter
      ∧ ∀ r : String, r ≠ "stop" → r ≠ "length" → r ≠ "tool_calls" →
          r ≠ "content_filter" → DeepSeekClient.mapFinishReason (some r) = none)
    ∧ (QwenClient.mapFinishReason none = none
      ∧ QwenClient.mapFinishReason (some "stop") = some .stop
      ∧ QwenClient.mapFinishReason (some "length") = some .length
      ∧ QwenClient.mapFinishReason (some "tool_calls") = some .tool_calls
      ∧ QwenClient.mapFinishReason (some "content_filter") = some .content_filter
      ∧ ∀ r : String, r ≠ "stop" → r ≠ "length" → r ≠ "tool_calls" →
          r ≠ "content_filter" → QwenClient.mapFinishReason (some r) = none) := by
  refine ⟨⟨rfl, rfl, rfl, rfl, rfl, ?_⟩, ⟨rfl, rfl, rfl, rfl, rfl, ?_⟩,
          ⟨rfl, rfl, rfl, rfl, rfl, ?_⟩, ⟨rfl, rfl, rfl, rfl, rfl, ?_⟩⟩ <;>
    · intro r h1 h2 h3 h4
      simp [GoogleClient.mapFinishReason, AnthropicClient.mapFinishReason,
        DeepSeekClient.mapFinishReason, QwenClient.mapFinishReason,
        h1, h2, h3, h4]

/-- C5 witness: the table theorem applied at the unrecognized code
"FINISH". -/
theorem claim_C5_witness :
    GoogleClient.mapFinishReason (some "FINISH") = none
      ∧ DeepSeekClient.mapFinishReason (some "FINISH") = none := by
  obtain ⟨⟨-, -, -, -, -, hg⟩, -, ⟨-, -, -, -, -, hd⟩, -⟩ := claim_C5_theorem
  exact ⟨hg "FINISH" (by decide) (by decide) (by decide) (by decide),
         hd "FINISH" (by decide) (by decide) (by decide) (by decide)⟩

/-- C7: for every token-count request, the Anthropic, DeepSeek and Qwen
clients (which have no native token counting) return
`totalTokens = ceil(L / 4)` where `L` is the length of the request's
newline-joined extracted text, and mark the result as estimated in its
metadata. -/
theorem claim_C7_theorem (request : TokenCountRequest) :
    (DeepSeekClient.countTokens request).totalTokens =
        (extractedRequestText request).length ⌈/⌉ 4
    ∧ (DeepSeekClient.countTokens request).metadata =
        some [("estimated", Json.bool true)]
    ∧ AnthropicClient.countTokens request = DeepSeekClient.countTokens request
    ∧ QwenClient.countTokens request = DeepSeekClient.countTokens request := by
  have hceil : (extractedRequestText request).length ⌈/⌉ 4 =
      ((extractedRequestText request).length + 3) / 4 := by
    rw [Nat.ceilDiv_eq_add_pred_div]
    congr 1
  refine ⟨?_, rfl, rfl, rfl⟩
  rw [hceil]
  rfl

/-- C4: feeding the accumulator a fragment whose id is already present
records the provided name and appends the argument fragment by string
concatenation (the rest of the map, and the record order, are untouched);
feeding the example fragments id "a" / args "\x7b\"x\":" then id "a" /
args "1\x7d" yields exactly one completed record whose arguments are the
JSON text \x7b"x":1\x7d; and a fragment carrying no id appends its argument
text to the most recently opened record. -/
theorem claim_C4_theorem :
    (∀ (m : List MultiModelStream.StoredToolCall) (tc : ToolCallFragment)
       (i a : String),
       tc.id = some i → i ≠ "" →
       tc.function.bind (·.arguments) = some a → a ≠ "" →
       m.any (fun r => r.id = i) = true →
       MultiModelStream.accumulateFragment m tc =
         m.map (fun r =>
           if r.id = i then
             { r with
               name := if strTruthy (tc.function.bind (·.name)) then
                         (tc.function.bind (·.name)).getD ""
                       else r.name,
               arguments := r.arguments ++ a }
           else r))
    ∧ (List.foldl MultiModelStream.accumulateFragment [] [fragAOpen, fragAMore] =
        [{ id := "a", type := none, name := "", arguments := "\x7b\"x\":1\x7d" }])
    ∧ (∀ (init : List MultiModelStream.StoredToolCall)
        (last : MultiModelStream.StoredToolCall) (tc : ToolCallFragment)
        (a : String),
        tc.id = none → tc.function.bind (·.arguments) = some a → a ≠ "" →
        MultiModelStream.accumulateFragment (init ++ [last]) tc =
          init ++ [{ last with arguments := last.arguments ++ a }]) := by
  refine ⟨?_, by decide, ?_⟩
  · intro m tc i a hid hi ha hane hmem
    simp [MultiModelStream.accumulateFragment, hid, ha, strTruthy, hi, hane, hmem]
  · intro init last tc a hid ha hane
    simp [MultiModelStream.accumulateFragment, hid, ha, strTruthy, hane,
      List.getLast?_concat, List.dropLast_concat]

/-- C4 witness: a no-id continuation fragment with argument text "y"
appended to the single opened record extends its arguments from "x" to
"xy". -/
theorem claim_C4_witness :
    MultiModelStream.accumulateFragment
      [{ id := "a", type := none, name := "n", arguments := "x" }]
      { id := none, type := none, function := some { arguments := some "y" } } =
      [{ id := "a", type := none, name := "n", arguments := "xy" }] := by
  have h := claim_C4_theorem.2.2 []
    { id := "a", type := none, name := "n", arguments := "x" }
    { id := none, type := none, function := some { arguments := some "y" } }
    "y" rfl rfl (by decide)
  simpa using h

/-- C8: on stream termination every accumulated record becomes exactly one
scheduled request (never dropped), and a record whose argument text fails to
JSON-parse is surfaced with a diagnostic and its raw partial payload kept
inspectable under the "content" key of the request's arguments. -/
theorem claim_C8_theorem :
    (∀ (ctx : JsCtx) (pending : List MultiModelStream.StoredToolCall),
       (MultiModelStream.processToolCalls ctx pending).1.length = pending.length)
    ∧ (∀ (ctx : JsCtx) (tc : MultiModelStream.StoredToolCall),
       tc.arguments ≠ "" → ctx.jsonParse tc.arguments = none →
       MultiModelStream.processOneToolCall ctx tc =
         ({ callId := tc.id,
            name := if tc.name = "" then "unknown" else tc.name,
            args := Json.obj [("content", Json.str tc.arguments)],
            isClientInitiated := false },
          ["Failed to parse tool call arguments as JSON"]))
    ∧ (∀ (ctx : JsCtx) (pending : List MultiModelStream.StoredToolCall)
        (k : Nat) (tc : MultiModelStream.StoredToolCall),
        pending[k]? = some tc → tc.arguments ≠ "" →
        ctx.jsonParse tc.arguments = none →
        (MultiModelStream.processToolCalls ctx pending).1[k]? =
          some { callId := tc.id,
                 name := if tc.name = "" then "unknown" else tc.name,
                 args := Json.obj [("content", Json.str tc.arguments)],
                 isClientInitiated := false }) := by
  have hone : ∀ (ctx : JsCtx) (tc : MultiModelStream.StoredToolCall),
      tc.arguments ≠ "" → ctx.jsonParse tc.arguments = none →
      MultiModelStream.processOneToolCall ctx tc =
        ({ callId := tc.id,
           name := if tc.name = "" then "unknown" else tc.name,
           args := Json.obj [("content", Json.str tc.arguments)],
           isClientInitiated := false },
         ["Failed to parse tool call arguments as JSON"]) := by
    intro ctx tc h1 h2
    simp [MultiModelStream.processOneToolCall, h1, h2,
      MultiModelStream.jsonObjGet, List.find?]
  refine ⟨?_, hone, ?_⟩
  · intro ctx pending
    simp [MultiModelStream.processToolCalls]
  · intro ctx pending k tc hk h1 h2
    simp [MultiModelStream.processToolCalls, List.getElem?_map, hk, hone ctx tc h1 h2]

/-- C8 witness: the record with unparseable argument text "\x7bbroken" is
surfaced as one request carrying the raw payload and one diagnostic. -/
theorem claim_C8_witness :
    MultiModelStream.processOneToolCall ctxFix storedBadArgs =
      ({ callId := "call_1", name := "do_thing",
         args := Json.obj [("content", Json.str "\x7bbroken")],
         isClientInitiated := false },
       ["Failed to parse tool call arguments as JSON"]) := by
  have h := claim_C8_theorem.2.1 ctxFix storedBadArgs (by decide) rfl
  simpa [storedBadArgs] using h
/-- C3: `createClient` is idempotent — after a successful call, calling
again with the same (model name, auth provider, auth method) key returns
the same cached adapter instance, leaves the state unchanged and performs
no network call; with a model name absent from the catalog (and no cached
entry) it fails with an "unknown model" error, changes nothing and performs
no network call; and every failing call — in particular one whose adapter
fails validation — leaves the client cache unchanged, so a failed
validation is never cached. -/
theorem claim_C3_theorem :
    (∀ (vo : ModelManager.ClientInst → Bool) (st : ModelManager.ManagerState)
       (name : String) (auth : AuthConfig) (c : ModelManager.ClientInst)
       (st' : ModelManager.ManagerState) (n : Nat),
       ModelManager.createClient vo st name auth = (.ok c, st', n) →
       ModelManager.createClient vo st' name auth = (.ok c, st', 0))
    ∧ (∀ (vo : ModelManager.ClientInst → Bool) (st : ModelManager.ManagerState)
        (name : String) (auth : AuthConfig),
        ModelManager.mapGet st.clients (ModelManager.clientKey name auth) = none →
        ModelManager.getModel st name = none →
        ModelManager.createClient vo st name auth =
          (.error ("Unknown model: " ++ name), st, 0))
    ∧ (∀ (vo : ModelManager.ClientInst → Bool) (st : ModelManager.ManagerState)
        (name : String) (auth : AuthConfig) (e : String)
        (st' : ModelManager.ManagerState) (n : Nat),
        ModelManager.createClient vo st name auth = (.error e, st', n) →
        st'.clients = st.clients) := by
  refine ⟨?_, ?_, ?_⟩
  · intro vo st name auth c st' n h
    cases hg : ModelManager.mapGet st.clients (ModelManager.clientKey name auth) with
    | some c0 =>
        simp only [ModelManager.createClient, hg, Prod.mk.injEq,
          Except.ok.injEq] at h
        obtain ⟨h1, h2, -⟩ := h
        subst h1
        subst h2
        simp [ModelManager.createClient, hg]
    | none =>
        cases hm : ModelManager.getModel st name with
        | none =>
            simp only [ModelManager.createClient, hg, hm] at h
            simp at h
        | some modelConfig =>
            simp only [ModelManager.createClient, hg, hm] at h
            split_ifs at h with hs hv
            · simp only [Prod.mk.injEq, Except.ok.injEq] at h
              obtain ⟨h1, h2, -⟩ := h
              subst h1
              subst h2
              simp [ModelManager.createClient, mapGet_mapSet_self]
            · simp at h
            · simp at h
  · intro vo st name auth hc hm
    simp [ModelManager.createClient, hc, hm]
  · intro vo st name auth e st' n h
    cases hg : ModelManager.mapGet st.clients (ModelManager.clientKey name auth) with
    | some c0 =>
        simp only [ModelManager.createClient, hg] at h
        simp at h
    | none =>
        cases hm : ModelManager.getModel st name with
        | none =>
            simp only [ModelManager.createClient, hg, hm, Prod.mk.injEq,
              Except.error.injEq] at h
            obtain ⟨-, h2, -⟩ := h
            subst h2
            rfl
        | some modelConfig =>
            simp only [ModelManager.createClient, hg, hm] at h
            split_ifs at h with hs hv
            · simp at h
            · simp only [Prod.mk.injEq, Except.error.injEq] at h
              obtain ⟨-, h2, -⟩ := h
              subst h2
              rfl
            · simp only [Prod.mk.injEq, Except.error.injEq] at h
              obtain ⟨-, h2, -⟩ := h
              subst h2
              rfl

/-- C3 witness: on the default catalog, asking for the unregistered model
name "nope" fails with the unknown-model error, leaves the state unchanged
and performs zero network calls. -/
theorem claim_C3_witness :
    ModelManager.createClient (fun _ => true) ModelManager.initialState
      "nope" authFix =
      (.error "Unknown model: nope", ModelManager.initialState, 0) := by
  have h := claim_C3_theorem.2.1 (fun _ => true) ModelManager.initialState
    "nope" authFix rfl rfl
  simpa using h

/-- Skipping system messages in the loop equals filtering them out first:
the fold over any accumulator is unchanged by removing system messages. -/
theorem googleMessageStep_filter (ctx : JsCtx) (messages : List ChatMessage) :
    ∀ acc : List GoogleClient.GContent,
      List.foldlM (GoogleClient.messageStep ctx) acc messages =
        List.foldlM (GoogleClient.messageStep ctx) acc
          (messages.filter (fun m => m.role ≠ .system)) := by
  induction messages with
  | nil => intro acc; rfl
  | cons m ms ih =>
      intro acc
      by_cases hrole : m.role = .system
      · have hstep : GoogleClient.messageStep ctx acc m = pure acc := by
          simp [GoogleClient.messageStep, hrole]
        simp [List.foldlM_cons, hstep, hrole, ih acc]
      · cases hstep : GoogleClient.messageStep ctx acc m with
        | none => simp [List.foldlM_cons, hstep, hrole]
        | some acc' => simp [List.foldlM_cons, hstep, hrole, ih acc']

/-- C1 counterexample: for a request whose turn sequence contains a system
message and whose parameters carry no `systemPrompt`, the built Google
request body has no `systemInstruction` field and its contents hold only
the user turn — so the system message is dropped, not sent to the vendor as
a system instruction. -/
theorem claim_C1_counterexample :
    googleSystemRequest.messages.map (·.role) = [.system, .user]
    ∧ GoogleClient.buildRequestBody ctxFix googleSystemRequest =
        some googleSystemBody
    ∧ googleSystemBody.systemInstruction = none
    ∧ googleSystemBody.contents.map (·.role) = ["user"] :=
  ⟨rfl, rfl, rfl, rfl⟩

/-- C1 amended: system-role messages are removed from the Google contents
turn sequence and never inlined (transforming a message list equals
transforming its non-system messages), and the body's `systemInstruction`
is populated only from a truthy `systemPrompt` generation parameter — the
removed system messages themselves are not relayed to the vendor. -/
theorem claim_C1_amended :
    (∀ (ctx : JsCtx) (messages : List ChatMessage),
      GoogleClient.transformMessages ctx messages =
        GoogleClient.transformMessages ctx
          (messages.filter (fun m => m.role ≠ .system)))
    ∧ (∀ (ctx : JsCtx) (request : GenerationRequest)
        (body : GoogleClient.GoogleRequestBody),
        GoogleClient.buildRequestBody ctx request = some body →
        body.systemInstruction =
          (if strTruthy (request.parameters.bind (·.systemPrompt)) then
            some { parts := [{ text := request.parameters.bind (·.systemPrompt) }] }
          else none)) := by
  constructor
  · intro ctx messages
    exact googleMessageStep_filter ctx messages []
  · intro ctx request body h
    obtain ⟨contents, -, rfl⟩ := Option.map_eq_some'.mp h
    rfl

/-- C1 witness: the amended theorem applied to `googleSystemRequest`, whose
body exists and whose system instruction is absent. -/
theorem claim_C1_witness :
    googleSystemBody.systemInstruction = none := by
  have h := claim_C1_amended.2 ctxFix googleSystemRequest googleSystemBody rfl
  simpa using h

/-- C6 counterexample: for a request with one system message whose content
is the empty string, the built Anthropic body carries NO `system` field at
all (the truthiness check on the joined prompt drops it), although the
claim requires the concatenation of all system messages to become the
`system` field. -/
theorem claim_C6_counterexample :
    anthropicEmptySystemRequest.messages.map (·.role) = [.system, .user]
    ∧ (AnthropicClient.buildRequestBody cfgFix ctxFix
        anthropicEmptySystemRequest).map (·.system) = some none :=
  ⟨rfl, rfl⟩

/-- C6 amended: all system-role messages are newline-joined in their
original order and removed from the turn sequence (the body's messages are
the transform of the remaining messages, order preserved); the joined text
becomes the single top-level `system` field whenever it is non-empty, and
the field is omitted when there are no system messages or their joined
text is the empty string. -/
theorem claim_C6_amended :
    ∀ (cfg : ModelConfig) (ctx : JsCtx) (request : GenerationRequest)
      (body : AnthropicClient.AnthropicRequestBody),
      AnthropicClient.buildRequestBody cfg ctx request = some body →
      (body.system =
        (if (request.messages.filter (fun m => m.role = .system)).length > 0
            ∧ String.intercalate "\n"
                ((request.messages.filter (fun m => m.role = .system)).map
                  (fun m => BaseModelClient.extractTextFromContent m.content)) ≠ ""
         then some (String.intercalate "\n"
                ((request.messages.filter (fun m => m.role = .system)).map
                  (fun m => BaseModelClient.extractTextFromContent m.content)))
         else none))
      ∧ ∃ msgs, AnthropicClient.transformMessages ctx
            (request.messages.filter (fun m => m.role ≠ .system)) = some msgs
          ∧ body.messages = msgs := by
  intro cfg ctx request body h
  simp only [AnthropicClient.buildRequestBody, AnthropicClient.separateSystemMessage] at h
  obtain ⟨msgs, hm, rfl⟩ := Option.map_eq_some'.mp h
  refine ⟨?_, msgs, hm, rfl⟩
  by_cases h1 : (request.messages.filter (fun m => m.role = .system)).length > 0
  · by_cases h2 : String.intercalate "\n"
        ((request.messages.filter (fun m => m.role = .system)).map
          (fun m => BaseModelClient.extractTextFromContent m.content)) = ""
    · simp [h1, h2, strTruthy]
    · simp [h1, h2, strTruthy]
  · simp [h1, strTruthy]

/-- C6 witness: the amended theorem applied to a request with system texts
"A" and "B": the body's system field is their newline join "A\nB" and the
turn sequence keeps exactly the one non-system message. -/
theorem claim_C6_witness :
    anthropicTwoSystemBody.system = some "A\nB"
    ∧ anthropicTwoSystemBody.messages.length = 1 := by
  have h := claim_C6_amended cfgFix ctxFix anthropicTwoSystemRequest
    anthropicTwoSystemBody rfl
  refine ⟨?_, rfl⟩
  rw [h.1]
  rfl

/-- The tool-call list produced by the response-part loop grows by exactly
one entry per part that has falsy text and carries a function call. -/
theorem googleResponseParts_length (ctx : JsCtx) :
    ∀ (parts : List GoogleClient.GRespPart) (s : String)
      (tcs : List ToolCall) (k : Nat),
      ((parts.foldl (GoogleClient.responseStep ctx) (s, tcs, k)).2.1).length =
        tcs.length +
          parts.countP (fun p => !strTruthy p.text && p.functionCall.isSome) := by
  intro parts
  induction parts with
  | nil => intro s tcs k; simp
  | cons p ps ih =>
      intro s tcs k
      by_cases ht : strTruthy p.text
      · simp [List.foldl_cons, GoogleClient.responseStep, ht, List.countP_cons, ih]
      · cases hfc : p.functionCall with
        | some fc =>
            simp only [List.foldl_cons, GoogleClient.responseStep, ht, hfc,
              Bool.false_eq_true, if_false, List.countP_cons]
            rw [ih]
            simp [ht, hfc]
            omega
        | none =>
            simp [List.foldl_cons, GoogleClient.responseStep, ht, hfc,
              List.countP_cons, ih]

/-- C9: the Google streaming translation emits exactly one choice at index
0 whose delta never carries tool calls, for every vendor payload — even
one whose candidate parts contain function calls — while the non-streaming
response translation of a payload containing a function-call part (with
falsy text) does reconstruct a non-empty tool-call list. -/
theorem claim_C9_theorem :
    (∀ (cfg : ModelConfig) (ctx : JsCtx) (data : GoogleClient.GRespData),
      ((GoogleClient.transformStreamingChunk cfg ctx data).choices.map
        (fun c => (c.index, c.delta.toolCalls))) = [(0, none)])
    ∧ (∀ (cfg : ModelConfig) (ctx : JsCtx) (data : GoogleClient.GRespData)
        (part : GoogleClient.GRespPart) (fc : GoogleClient.GRespFunctionCall),
        part ∈ GoogleClient.firstCandidateParts data →
        part.functionCall = some fc → strTruthy part.text = false →
        ∃ tcs, ((GoogleClient.transformResponse cfg ctx data).choices.map
            (fun c => c.message.toolCalls)) = [some tcs] ∧ tcs ≠ []) := by
  constructor
  · intro cfg ctx data
    rfl
  · intro cfg ctx data part fc hmem hfc htext
    have hcnt : 0 < (GoogleClient.firstCandidateParts data).countP
        (fun p => !strTruthy p.text && p.functionCall.isSome) :=
      List.countP_pos_iff.mpr ⟨part, hmem, by simp [htext, hfc]⟩
    have hlen : 0 <
        ((GoogleClient.responseParts ctx (GoogleClient.firstCandidateParts data)).2.1).length := by
      rw [GoogleClient.responseParts, googleResponseParts_length]
      simpa using hcnt
    refine ⟨(GoogleClient.responseParts ctx (GoogleClient.firstCandidateParts data)).2.1,
      ?_, ?_⟩
    · simp [GoogleClient.transformResponse, hlen]
    · exact List.ne_nil_of_length_pos hlen

/-- C9 witness: on a payload whose single candidate part is a function
call, the streaming translation yields one choice with no tool calls while
the response translation yields a non-empty tool-call list. -/
theorem claim_C9_witness :
    ((GoogleClient.transformStreamingChunk cfgFix ctxFix gRespDataFix).choices.map
      (fun c => (c.index, c.delta.toolCalls))) = [(0, none)]
    ∧ ∃ tcs, ((GoogleClient.transformResponse cfgFix ctxFix gRespDataFix).choices.map
        (fun c => c.message.toolCalls)) = [some tcs] ∧ tcs ≠ [] :=
  ⟨claim_C9_theorem.1 cfgFix ctxFix gRespDataFix,
   claim_C9_theorem.2 cfgFix ctxFix gRespDataFix
     { functionCall := some { name := "f" } } { name := "f" }
     (by simp [GoogleClient.firstCandidateParts, gRespDataFix])
     rfl rfl⟩

/-- C2 counterexample: over a connection that delivers one malformed
`data:` line followed by one well-formed line, the transport yields the
degraded element, then the parsed element, then the terminal element — but
the DeepSeek adapter's stream converts the degraded element into a terminal
thrown error, delivering NO chunks at all, even though the valid payload
after the malformed line translates to a chunk: at the adapter level the
parse failure terminates the whole stream. -/
theorem claim_C2_counterexample :
    BaseModelClient.makeStreamingRequest dsParseFix connFix =
      [{ success := false, error := some "JSON parse error" },
       { success := true, data := some dsStreamFix },
       { success := true, done := true }]
    ∧ DeepSeekClient.generateContentStream cfgFix ctxFix dsParseFix connFix =
      ([], some "DeepSeek streaming failed: DeepSeek API streaming error: JSON parse error")
    ∧ (DeepSeekClient.transformStreamingChunk cfgFix ctxFix dsStreamFix).isSome = true :=
  ⟨rfl, rfl, rfl⟩

/-- C2 amended: the transport helper reports a line that fails JSON parsing
as one degraded error-tagged element and continues — its sequence still
ends with the clean terminal element — and ends immediately with exactly
one error element when the initial connection fails; however, the adapter's
`generateContentStream` re-raises ANY error-tagged element, including a
mid-stream parse failure, as a thrown error that terminates the adapter's
chunk sequence at that point, never reaching the later elements. -/
theorem claim_C2_amended :
    (∀ {α : Type} (parse : String → Option α) (line : String),
      jsTrim line ≠ "" → jsTrim line ≠ "data: [DONE]" →
      jsStartsWith (jsTrim line) "data: " = true →
      parse (jsSlice (jsTrim line) 6) = none →
      BaseModelClient.processLine parse line =
        some { success := false, error := some "JSON parse error" })
    ∧ (∀ {α : Type} (parse : String → Option α) (reads : List String),
      (BaseModelClient.makeStreamingRequest parse (.okBody reads)).getLast? =
        some { success := true, done := true })
    ∧ (∀ {α : Type} (parse : String → Option α) (status : Nat)
        (statusText : String),
      BaseModelClient.makeStreamingRequest parse (.notOk status statusText) =
        [{ success := false,
           error := some ("HTTP " ++ toString status ++ ": " ++ statusText) }])
    ∧ (∀ (cfg : ModelConfig) (ctx : JsCtx)
        (xs ys : List (BaseModelClient.SSEElem DeepSeekClient.DSStreamData))
        (e : BaseModelClient.SSEElem DeepSeekClient.DSStreamData),
        (∀ x ∈ xs, x.success = true ∧ x.done = false) → e.success = false →
        DeepSeekClient.streamLoop cfg ctx (xs ++ e :: ys) =
          (xs.filterMap (fun x => x.data.bind
             (DeepSeekClient.transformStreamingChunk cfg ctx)),
           some ("DeepSeek streaming failed: DeepSeek API streaming error: "
                 ++ e.error.getD "undefined"))) := by
  refine ⟨?_, ?_, ?_, ?_⟩
  · intro α parse line h1 h2 h3 h4
    simp [BaseModelClient.processLine, h1, h2, h3, h4]
  · intro α parse reads
    simp [BaseModelClient.makeStreamingRequest, List.getLast?_concat]
  · intro α parse status statusText
    rfl
  · intro cfg ctx xs ys e
    induction xs with
    | nil =>
        intro hxs he
        simp [DeepSeekClient.streamLoop, he]
    | cons x xs ih =>
        intro hxs he
        have hx := hxs x (List.mem_cons_self x xs)
        have hxs' : ∀ x' ∈ xs, x'.success = true ∧ x'.done = false :=
          fun x' hx' => hxs x' (List.mem_cons_of_mem x hx')
        cases hd : x.data with
        | none =>
            simp [DeepSeekClient.streamLoop, hx.1, hx.2, hd, ih hxs' he]
        | some d =>
            cases htr : DeepSeekClient.transformStreamingChunk cfg ctx d with
            | none =>
                simp [DeepSeekClient.streamLoop, hx.1, hx.2, hd, htr, ih hxs' he]
            | some c =>
                simp [DeepSeekClient.streamLoop, hx.1, hx.2, hd, htr, ih hxs' he]

/-- C2 witness: the amended theorem applied to the concrete malformed line
"data: bad" under the fixture parser. -/
theorem claim_C2_witness :
    BaseModelClient.processLine dsParseFix "data: bad" =
      some { success := false, error := some "JSON parse error" } :=
  claim_C2_amended.1 dsParseFix "data: bad" (by decide) (by decide)
    (by decide) rfl

/-- C10: every canonical response or chunk produced by the four adapters
contains exactly one choice, at index 0, with message role assistant for
full responses; and the adapters whose vendor payload carries a
choice/candidate list (DeepSeek, Google) translate only its first entry —
truncating the vendor list to one element leaves the translation
unchanged. -/
theorem claim_C10_theorem :
    (∀ (cfg : ModelConfig) (ctx : JsCtx) (data : DeepSeekClient.DSRespData)
       (r : GenerationResponse),
       DeepSeekClient.transformResponse cfg ctx data = .ok r →
       r.choices.map (fun c => (c.index, c.message.role)) = [(0, .assistant)])
    ∧ (∀ (cfg : ModelConfig) (ctx : JsCtx) (data : DeepSeekClient.DSRespData),
       DeepSeekClient.transformResponse cfg ctx
         { data with choices := data.choices.map (List.take 1) } =
       DeepSeekClient.transformResponse cfg ctx data)
    ∧ (∀ (cfg : ModelConfig) (ctx : JsCtx) (data : DeepSeekClient.DSStreamData)
        (ch : StreamingChunk),
        DeepSeekClient.transformStreamingChunk cfg ctx data = some ch →
        ch.choices.map (·.index) = [0])
    ∧ (∀ (cfg : ModelConfig) (ctx : JsCtx) (data : DeepSeekClient.DSStreamData),
        DeepSeekClient.transformStreamingChunk cfg ctx
          { data with choices := data.choices.map (List.take 1) } =
        DeepSeekClient.transformStreamingChunk cfg ctx data)
    ∧ (∀ (cfg : ModelConfig) (ctx : JsCtx) (data : GoogleClient.GRespData),
        (GoogleClient.transformResponse cfg ctx data).choices.map
          (fun c => (c.index, c.message.role)) = [(0, .assistant)])
    ∧ (∀ (cfg : ModelConfig) (ctx : JsCtx) (data : GoogleClient.GRespData),
        GoogleClient.transformResponse cfg ctx
          { data with candidates := data.candidates.map (List.take 1) } =
        GoogleClient.transformResponse cfg ctx data)
    ∧ (∀ (cfg : ModelConfig) (ctx : JsCtx) (data : GoogleClient.GRespData),
        (GoogleClient.transformStreamingChunk cfg ctx data).choices.map
          (·.index) = [0])
    ∧ (∀ (cfg : ModelConfig) (ctx : JsCtx) (data : GoogleClient.GRespData),
        GoogleClient.transformStreamingChunk cfg ctx
          { data with candidates := data.candidates.map (List.take 1) } =
        GoogleClient.transformStreamingChunk cfg ctx data)
    ∧ (∀ (cfg : ModelConfig) (ctx : JsCtx) (data : AnthropicClient.ARespData),
        (AnthropicClient.transformResponse cfg ctx data).choices.map
          (fun c => (c.index, c.message.role)) = [(0, .assistant)])
    ∧ (∀ (cfg : ModelConfig) (ctx : JsCtx) (data : AnthropicClient.AStreamData)
        (ch : StreamingChunk),
        AnthropicClient.transformStreamingChunk cfg ctx data = some ch →
        ch.choices.map (·.index) = [0])
    ∧ (∀ (cfg : ModelConfig) (ctx : JsCtx) (data : QwenClient.QRespData)
        (r : GenerationResponse),
        QwenClient.transformResponse cfg ctx data = .ok r →
        r.choices.map (fun c => (c.index, c.message.role)) = [(0, .assistant)])
    ∧ (∀ (cfg : ModelConfig) (ctx : JsCtx) (data : QwenClient.QStreamData)
        (ch : StreamingChunk),
        QwenClient.transformStreamingChunk cfg ctx data = some ch →
        ch.choices.map (·.index) = [0]) := by
  refine ⟨?_, ?_, ?_, ?_, ?_, ?_, ?_, ?_, ?_, ?_, ?_, ?_⟩
  · intro cfg ctx data r h
    unfold DeepSeekClient.transformResponse at h
    split at h
    · exact absurd h (by simp)
    · simp only [Except.ok.injEq] at h
      subst h
      rfl
  · intro cfg ctx data
    obtain ⟨id, model, created, choices, usage⟩ := data
    cases choices with
    | none => rfl
    | some l => cases l <;> rfl
  · intro cfg ctx data ch h
    unfold DeepSeekClient.transformStreamingChunk at h
    split at h
    · exact absurd h (by simp)
    · split at h
      · exact absurd h (by simp)
      · simp only [Option.some.injEq] at h
        subst h
        rfl
  · intro cfg ctx data
    obtain ⟨id, model, created, choices, usage⟩ := data
    cases choices with
    | none => rfl
    | some l => cases l <;> rfl
  · intro cfg ctx data
    rfl
  · intro cfg ctx data
    obtain ⟨candidates, usageMetadata⟩ := data
    cases candidates with
    | none => rfl
    | some l => cases l <;> rfl
  · intro cfg ctx data
    rfl
  · intro cfg ctx data
    obtain ⟨candidates, usageMetadata⟩ := data
    cases candidates with
    | none => rfl
    | some l => cases l <;> rfl
  · intro cfg ctx data
    rfl
  · intro cfg ctx data ch h
    unfold AnthropicClient.transformStreamingChunk at h
    split_ifs at h with h1 h2 h3 h4
    all_goals
      simp only [Option.some.injEq] at h
      subst h
      rfl
  · intro cfg ctx data r h
    unfold QwenClient.transformResponse at h
    split at h
    · exact absurd h (by simp)
    · simp only [Except.ok.injEq] at h
      subst h
      rfl
  · intro cfg ctx data ch h
    unfold QwenClient.transformStreamingChunk at h
    split at h
    · exact absurd h (by simp)
    · simp only [Option.some.injEq] at h
      subst h
      rfl

/-- C10 witness: the DeepSeek streaming conjunct applied to a concrete
payload whose translated chunk is `dsChunkFix`. -/
theorem claim_C10_witness :
    dsChunkFix.choices.map (·.index) = [0] :=
  claim_C10_theorem.2.2.1 cfgFix ctxFix dsStreamFix dsChunkFix rfl
